import Mathlib

/-!
Shallow embedding of `structuralcodes/code/mc2010/_concrete_shear.py`
(shear formulas from fib Model Code 2010) and verification of the
specification claims about it.

Python floats are modelled as real numbers; decimal literals are read as
exact rationals.  Where the Python code can produce a non-numeric
outcome — a raised exception or an implicit `None` return — the
embedding returns an explicit `PyRet` value.  A small universe `PyVal`
of Python runtime values models the dynamic type errors present in the
source: a float multiplied by a tuple (the misplaced closing parenthesis
in `epsilon_x` and in `v_rds_approx3`), `min` applied to a single float
(`min(0.65)` in `v_rd_max_approx2`), and an integer multiplied by a bare
function object (`10000 * epsilon_x` in `v_rd_max_approx3`).

`fck ** 0.5` is modelled as `Real.sqrt fck` and `(30/fck) ** (1/3)` as a
real power; both agree with the Python semantics on the nonnegative
inputs the formulas are meant for.
-/

namespace ConcreteShear

open Real

noncomputable section

/-- Python runtime values occurring in this module: numbers, the 2-tuples
produced by the misplaced parentheses, and a bare function object. -/
inductive PyVal where
  | num : ℝ → PyVal
  | pair : ℝ → ℝ → PyVal
  | func : PyVal

/-- Python multiplication.  A float times a float is a float; a float
times a tuple raises `TypeError` (Python only repeats sequences for
`int` factors), and anything times a function object raises
`TypeError`. -/
def pyMul : PyVal → PyVal → Except String PyVal
  | PyVal.num a, PyVal.num b => Except.ok (PyVal.num (a * b))
  | PyVal.num _, PyVal.pair _ _ =>
      Except.error "TypeError: cannot multiply sequence by non-int of type float"
  | _, _ => Except.error "TypeError: unsupported operand types for *"

/-- Python `max` applied to a single argument: the argument must be an
iterable, so a 2-tuple yields its larger component and anything else
raises `TypeError`. -/
def pyMax1 : PyVal → Except String ℝ
  | PyVal.pair a b => Except.ok (max a b)
  | _ => Except.error "TypeError: float object is not iterable"

/-- Python `min` applied to a single argument (as in the source's
`min(0.65)`): a float is not iterable, so this raises `TypeError`. -/
def pyMin1 : PyVal → Except String ℝ
  | PyVal.pair a b => Except.ok (min a b)
  | _ => Except.error "TypeError: float object is not iterable"

/-- Outcome of a Python function call in this module: a returned float,
an implicit `None` return (control falling off the end of the
function), or a raised exception. -/
inductive PyRet where
  | val : ℝ → PyRet
  | noneRet : PyRet
  | exn : String → PyRet

/-- Python `min(a_expr, b_expr)` over two call results: a raised
exception in the first argument propagates, then one in the second;
comparing `None` with a float raises `TypeError`; two floats give the
smaller one. -/
def pyMin : PyRet → PyRet → PyRet
  | PyRet.exn e, _ => PyRet.exn e
  | _, PyRet.exn e => PyRet.exn e
  | PyRet.val a, PyRet.val b => PyRet.val (min a b)
  | _, _ => PyRet.exn "TypeError: comparison between NoneType and float"

/-- Python `a_expr + b_expr` over two call results, with the same
propagation rules as `pyMin`. -/
def pyAdd : PyRet → PyRet → PyRet
  | PyRet.exn e, _ => PyRet.exn e
  | _, PyRet.exn e => PyRet.exn e
  | PyRet.val a, PyRet.val b => PyRet.val (a + b)
  | _, _ => PyRet.exn "TypeError: unsupported operand types for +"

/-- `epsilon_x` translated from the source.  The Python body is

`max((1 / (2 * E * As)) * ((abs(Med) / z) + abs(Ved) + abs(Ned) * ((1 / 2) + (delta_e / z)), 0))`

Because of the misplaced closing parenthesis, the float `1/(2*E*As)` is
multiplied by the 2-tuple `(formula, 0)` and `max` receives that single
product, so every call raises `TypeError`. -/
def epsilon_x (E As Med Ved Ned z delta_e : ℝ) : Except String ℝ :=
  (pyMul (PyVal.num (1 / (2 * E * As)))
      (PyVal.pair (|Med| / z + |Ved| + |Ned| * (1 / 2 + delta_e / z)) 0)).bind pyMax1

/-- `v_rds` translated from the source: the emitted warnings paired with
the returned value.  The guard `if 45 < theta < 20` is the chained
comparison `45 < theta and theta < 20`, translated literally. -/
def v_rds (asw sw z fywd theta alpha : ℝ) : List String × ℝ :=
  (if 45 < theta ∧ theta < 20 then ["Too high or too low compression field angel"] else [],
   asw / sw * z * fywd *
     (1 / Real.tan (theta * π / 180) + 1 / Real.tan (alpha * π / 180)) *
     Real.sin (alpha * π / 180))

/-- `v_rds` called without its optional argument: the source's default
is `alpha = pi / 2` (the radian value, later treated as degrees by the
body). -/
def v_rds_default (asw sw z fywd theta : ℝ) : List String × ℝ :=
  v_rds asw sw z fywd theta (π / 2)

/-- `v_rd_max_approx1` translated from the source. -/
def v_rd_max_approx1 (fck bw theta z alfa gamma_c : ℝ) : ℝ :=
  let nfc := min ((30 / fck) ^ ((1 : ℝ) / 3)) 1
  0.55 * nfc * (fck / gamma_c) * bw * z *
    ((1 / Real.tan (theta * π / 180) + 1 / Real.tan (alfa * π / 180)) /
      (1 + (1 / Real.tan (theta * π / 180)) ^ 2))

/-- `v_rd_max_approx1` called without its optional arguments: the
source's defaults are `alfa = 0` and `gamma_c = 1.5`. -/
def v_rd_max_approx1_default (fck bw theta z : ℝ) : ℝ :=
  v_rd_max_approx1 fck bw theta z 0 1.5

/-- `v_rd_max_approx2` translated from the source.  `epsilon_x` is
called twice in the `epsilon_1` line; if `k_epsilon > 0.65` the source
executes `k_epsilon = min(0.65)` (a `TypeError`) and only that branch
contains a `return`, so the other branch falls off the end of the
function and yields `None`. -/
def v_rd_max_approx2 (fck bw theta z E As Med Ved Ned delta_e alfa gamma_c : ℝ) : PyRet :=
  let nfc := min ((30 / fck) ^ ((1 : ℝ) / 3)) 1
  match epsilon_x E As Med Ved Ned z delta_e with
  | Except.error e => PyRet.exn e
  | Except.ok ex1 =>
    match epsilon_x E As Med Ved Ned z delta_e with
    | Except.error e => PyRet.exn e
    | Except.ok ex2 =>
      let epsilon_1 := ex1 + (ex2 + 0.002) * (1 / Real.tan (theta * π / 180)) ^ 2
      let k_epsilon := 1 / (1.2 + 55 * epsilon_1)
      if k_epsilon > 0.65 then
        match pyMin1 (PyVal.num 0.65) with
        | Except.error e => PyRet.exn e
        | Except.ok k =>
          PyRet.val (k * nfc * (fck / gamma_c) * bw * z *
            ((1 / Real.tan (theta * π / 180) + 1 / Real.tan (alfa * π / 180)) /
              (1 + (1 / Real.tan (theta * π / 180)) ^ 2)))
      else PyRet.noneRet

/-- `v_rd_max_approx3` translated from the source.  The `theta_min`
line multiplies `10000` by the bare function object `epsilon_x` (no
call), which would raise `TypeError`; the preceding `epsilon_1` line
already raises inside `epsilon_x` itself. -/
def v_rd_max_approx3 (fck bw theta z E As Med Ved Ned delta_e alfa gamma_c : ℝ) : PyRet :=
  let nfc := min ((30 / fck) ^ ((1 : ℝ) / 3)) 1
  match epsilon_x E As Med Ved Ned z delta_e with
  | Except.error e => PyRet.exn e
  | Except.ok ex1 =>
    match epsilon_x E As Med Ved Ned z delta_e with
    | Except.error e => PyRet.exn e
    | Except.ok ex2 =>
      let epsilon_1 := ex1 + (ex2 + 0.002) * (1 / Real.tan (theta * π / 180)) ^ 2
      let k_epsilon := min (1 / (1.2 + 55 * epsilon_1)) 0.65
      match pyMul (PyVal.num 10000) PyVal.func with
      | Except.error e => PyRet.exn e
      | Except.ok (PyVal.num tm) =>
        let theta_min := 20 + tm
        PyRet.val (k_epsilon * nfc * (fck / gamma_c) * bw * z *
          ((1 / Real.tan (theta_min * π / 180) + 1 / Real.tan (alfa * π / 180)) /
            (1 + (1 / Real.tan (theta_min * π / 180)) ^ 2)))
      | Except.ok _ => PyRet.exn "TypeError: unsupported operand types for +"

/-- `v_rd_max` dispatcher translated from the source: levels 1, 2, 3
select the three approximations; any other level falls off the end and
returns `None`.  Because the source is untyped and other functions pass
floats into this slot, the selector is modelled as a real number. -/
def v_rd_max (approx_lvl_s fck bw theta z E As Med Ved Ned delta_e alfa gamma_c : ℝ) : PyRet :=
  if approx_lvl_s = 1 then
    PyRet.val (v_rd_max_approx1 fck bw theta z alfa gamma_c)
  else if approx_lvl_s = 2 then
    v_rd_max_approx2 fck bw theta z E As Med Ved Ned delta_e alfa gamma_c
  else if approx_lvl_s = 3 then
    v_rd_max_approx3 fck bw theta z E As Med Ved Ned delta_e alfa gamma_c
  else PyRet.noneRet

/-- `v_rdc_approx1` translated from the source. -/
def v_rdc_approx1 (fck z bw gamma_c : ℝ) : ℝ :=
  let fsqr := min (Real.sqrt fck) 8
  let kv := 180 / (1000 + 1.25 * z)
  kv * fsqr * z * bw / gamma_c

/-- `v_rdc_approx2` translated from the source. -/
def v_rdc_approx2 (fck z bw dg E As Med Ved Ned delta_e gamma_c : ℝ) : PyRet :=
  let fsqr := min (Real.sqrt fck) 8
  let kdg := max (32 / (16 + dg)) 0.75
  match epsilon_x E As Med Ved Ned z delta_e with
  | Except.error e => PyRet.exn e
  | Except.ok ex =>
    let kv := 0.4 / (1 + 1500 * ex) * (1300 / (1000 + kdg * z))
    PyRet.val (kv * fsqr * z * bw / gamma_c)

/-- `v_rds_approx3` translated from the source.  Its `v_rd_max` call
passes 12 positional arguments into a 13-parameter signature, so `fck`
lands in the selector slot and every later argument shifts by one; and
its `kv = max(...)` line repeats the misplaced-parenthesis pattern of
`epsilon_x`, multiplying a float by the 2-tuple `(1 - Ved/vmax, 0)`. -/
def v_rds_approx3 (fck z bw E As Med Ved Ned delta_e alfa gamma_c : ℝ) : PyRet :=
  let fsqr := min (Real.sqrt fck) 8
  match epsilon_x E As Med Ved Ned z delta_e with
  | Except.error e => PyRet.exn e
  | Except.ok ex1 =>
    let theta_min := 20 + 10000 * ex1
    match epsilon_x E As Med Ved Ned z delta_e with
    | Except.error e => PyRet.exn e
    | Except.ok ex2 =>
      match v_rd_max fck bw theta_min z E As Med Ved Ned delta_e alfa gamma_c 1.5 with
      | PyRet.exn e => PyRet.exn e
      | PyRet.noneRet => PyRet.exn "TypeError: unsupported operand types for /"
      | PyRet.val vm =>
        match (pyMul (PyVal.num (0.4 / (1 + 1500 * ex2)))
            (PyVal.pair (1 - Ved / vm) 0)).bind pyMax1 with
        | Except.error e => PyRet.exn e
        | Except.ok kv => PyRet.val (kv * fsqr * z * bw / gamma_c)

/-- `v_rdc` dispatcher translated from the source: `approx_lvl_c = 1`
and `2` select the concrete approximations, `approx_lvl_s = 3` selects
`v_rds_approx3`, and any other combination falls off the end and
returns `None`. -/
def v_rdc (approx_lvl_c approx_lvl_s fck z bw dg E As Med Ved Ned delta_e alfa gamma_c : ℝ) :
    PyRet :=
  if approx_lvl_c = 1 then PyRet.val (v_rdc_approx1 fck z bw gamma_c)
  else if approx_lvl_c = 2 then
    v_rdc_approx2 fck z bw dg E As Med Ved Ned delta_e gamma_c
  else if approx_lvl_s = 3 then
    v_rds_approx3 fck z bw E As Med Ved Ned delta_e alfa gamma_c
  else PyRet.noneRet

/-- `v_rd` translated from the source.  Both `v_rdc` call sites pass 13
positional arguments into `v_rdc`'s 14-parameter signature, omitting the
`approx_lvl_s` slot, so `fck` lands in `approx_lvl_s`, `z` in `fck`, and
so on, with `gamma_c` taking its default `1.5`.  The final branch
condition `reinforcment and approx_lvl_s == 1 or 2` parses as
`(reinforcment and approx_lvl_s == 1) or 2`, which is always truthy, so
every reinforced call with `approx_lvl_s != 3` takes it. -/
def v_rd (approx_lvl_c approx_lvl_s : ℝ) (reinforcment : Bool)
    (fck z bw dg E As Med Ved Ned delta_e alfa gamma_c asw sw fywd theta : ℝ) : PyRet :=
  if reinforcment = false then
    v_rdc approx_lvl_c fck z bw dg E As Med Ved Ned delta_e alfa gamma_c 1.5
  else if approx_lvl_s = 3 then
    pyMin
      (pyAdd (v_rdc approx_lvl_c fck z bw dg E As Med Ved Ned delta_e alfa gamma_c 1.5)
        (PyRet.val (v_rds asw sw z fywd theta alfa).2))
      (v_rd_max approx_lvl_s fck bw theta z E As Med Ved Ned delta_e alfa gamma_c)
  else
    pyMin (PyRet.val (v_rds asw sw z fywd theta alfa).2)
      (v_rd_max approx_lvl_s fck bw theta z E As Med Ved Ned delta_e alfa gamma_c)

end

/-! ## Claim theorems -/

/-- C1: `epsilon_x` never returns the floored strain value: because of
the misplaced parenthesis the float `1/(2*E*As)` is multiplied by the
2-tuple `(formula, 0)`, so every call raises `TypeError` instead of
returning `max(formula, 0) ≥ 0`. -/
theorem epsilon_x_always_raises (E As Med Ved Ned z delta_e : ℝ) :
    epsilon_x E As Med Ved Ned z delta_e
      = Except.error "TypeError: cannot multiply sequence by non-int of type float" := rfl

/-- C4: `v_rd_max_approx2` never returns a numeric result: its first
`epsilon_x` call raises `TypeError` on every input (and, independently,
its clamp branch executes `min(0.65)` — another `TypeError` — while its
unclamped branch has no `return` and would yield `None`). -/
theorem v_rd_max_approx2_always_raises
    (fck bw theta z E As Med Ved Ned delta_e alfa gamma_c : ℝ) :
    v_rd_max_approx2 fck bw theta z E As Med Ved Ned delta_e alfa gamma_c
      = PyRet.exn "TypeError: cannot multiply sequence by non-int of type float" := rfl

/-- C5: `v_rd_max_approx3` never computes or uses a `theta_min` derived
from an evaluated `epsilon_x`: its `epsilon_1` line raises `TypeError`
inside `epsilon_x` on every input (and its `theta_min` line multiplies
`10000` by the bare function object `epsilon_x`, never by its value). -/
theorem v_rd_max_approx3_always_raises
    (fck bw theta z E As Med Ved Ned delta_e alfa gamma_c : ℝ) :
    v_rd_max_approx3 fck bw theta z E As Med Ved Ned delta_e alfa gamma_c
      = PyRet.exn "TypeError: cannot multiply sequence by non-int of type float" := rfl

/-- C7: evaluating `v_rds` at the out-of-range angle `theta = 50`
emits no warning, and indeed no input ever does: the source's guard
`45 < theta < 20` is the unsatisfiable conjunction
`45 < theta and theta < 20`. -/
theorem v_rds_never_warns (asw sw z fywd theta alpha : ℝ) :
    (v_rds asw sw z fywd theta alpha).1 = [] := by
  simp only [v_rds]
  rw [if_neg]
  rintro ⟨h1, h2⟩
  linarith

/-- C10: `v_rdc` at concrete approximation level 1 is independent of the
internal-force arguments `E, As, Med, Ved, Ned, delta_e`: varying only
those leaves the result unchanged. -/
theorem v_rdc_lvl1_force_independent
    (approx_lvl_s fck z bw dg E As Med Ved Ned delta_e alfa gamma_c
      E2 As2 Med2 Ved2 Ned2 delta_e2 : ℝ) :
    v_rdc 1 approx_lvl_s fck z bw dg E As Med Ved Ned delta_e alfa gamma_c
      = v_rdc 1 approx_lvl_s fck z bw dg E2 As2 Med2 Ved2 Ned2 delta_e2 alfa gamma_c := by
  simp [v_rdc]

/-- C6 (counterexample): `v_rd_max` with the invalid approximation level
4 silently returns `None`; no error is raised. -/
theorem v_rd_max_silent_none :
    v_rd_max 4 30 50 20 200 210000 1000 200000000 50000 10000 50 20 1.5
      = PyRet.noneRet := by
  simp only [v_rd_max]
  rw [if_neg (by norm_num), if_neg (by norm_num), if_neg (by norm_num)]

/-- C6 (amended): for an approximation level outside its enumeration,
`v_rd_max` silently returns `None`, and so does `v_rdc` for an
undefined selector combination — no descriptive error is raised. -/
theorem invalid_selector_returns_none
    (approx_lvl_c approx_lvl_s fck z bw dg theta E As Med Ved Ned delta_e alfa gamma_c : ℝ)
    (hs1 : approx_lvl_s ≠ 1) (hs2 : approx_lvl_s ≠ 2) (hs3 : approx_lvl_s ≠ 3)
    (hc1 : approx_lvl_c ≠ 1) (hc2 : approx_lvl_c ≠ 2) :
    v_rd_max approx_lvl_s fck bw theta z E As Med Ved Ned delta_e alfa gamma_c
        = PyRet.noneRet
    ∧ v_rdc approx_lvl_c approx_lvl_s fck z bw dg E As Med Ved Ned delta_e alfa gamma_c
        = PyRet.noneRet := by
  constructor
  · simp only [v_rd_max]
    rw [if_neg hs1, if_neg hs2, if_neg hs3]
  · simp only [v_rdc]
    rw [if_neg hc1, if_neg hc2, if_neg hs3]

/-- C6 witness: the amended statement holds at the concrete invalid
selectors `approx_lvl_s = 4`, `approx_lvl_c = 5`. -/
theorem invalid_selector_returns_none_witness :
    ((4 : ℝ) ≠ 1 ∧ (4 : ℝ) ≠ 2 ∧ (4 : ℝ) ≠ 3 ∧ (5 : ℝ) ≠ 1 ∧ (5 : ℝ) ≠ 2)
    ∧ (v_rd_max 4 30 50 20 200 210000 1000 200000000 50000 10000 50 20 1.5
          = PyRet.noneRet
        ∧ v_rdc 5 4 30 200 50 16 210000 1000 200000000 50000 10000 50 20 1.5
          = PyRet.noneRet) := by
  refine ⟨⟨by norm_num, by norm_num, by norm_num, by norm_num, by norm_num⟩, ?_⟩
  exact invalid_selector_returns_none 5 4 30 200 50 16 20 210000 1000 200000000 50000 10000 50
    20 1.5 (by norm_num) (by norm_num) (by norm_num) (by norm_num) (by norm_num)

/-- Helper: the square root of 35 lies strictly between 5.9 and 6. -/
theorem sqrt35_bounds : 5.9 < Real.sqrt 35 ∧ Real.sqrt 35 < 6 := by
  have h := Real.sq_sqrt (show (0 : ℝ) ≤ 35 by norm_num)
  have hn := Real.sqrt_nonneg 35
  constructor <;> nlinarith

/-- Helper: 8 is at most the square root of 180. -/
theorem sqrt180_ge_8 : (8 : ℝ) ≤ Real.sqrt 180 := by
  have h := Real.sq_sqrt (show (0 : ℝ) ≤ 180 by norm_num)
  have hn := Real.sqrt_nonneg 180
  nlinarith

/-- C2: at the repository's own first `v_rd` test input, `v_rd` with
`reinforcment = False` returns 2457.6 — the result of the argument-shifted
`v_rdc` call (13 positional arguments into 14 slots, so `fck` lands in
`approx_lvl_s`, `z` in `fck`, and so on) — and this differs from `v_rdc`
called with the identical concrete-path arguments bound by name, which
the test expects (≈ 20863). -/
theorem v_rd_noreinf_shifted :
    v_rd 1 0 false 35 180 200 16 200000 2000 0 2000 0 20 90 1.5 0 0 434 40
        = PyRet.val 2457.6
    ∧ v_rd 1 0 false 35 180 200 16 200000 2000 0 2000 0 20 90 1.5 0 0 434 40
        ≠ v_rdc 1 0 35 180 200 16 200000 2000 0 2000 0 20 90 1.5 := by
  have h1 : v_rd 1 0 false 35 180 200 16 200000 2000 0 2000 0 20 90 1.5 0 0 434 40
      = PyRet.val (v_rdc_approx1 180 200 16 1.5) := by
    show v_rdc 1 35 180 200 16 200000 2000 0 2000 0 20 90 1.5 1.5
        = PyRet.val (v_rdc_approx1 180 200 16 1.5)
    simp [v_rdc]
  have h2 : v_rdc_approx1 180 200 16 1.5 = 2457.6 := by
    simp only [v_rdc_approx1]
    rw [min_eq_right sqrt180_ge_8]
    norm_num
  have h3 : v_rdc 1 0 35 180 200 16 200000 2000 0 2000 0 20 90 1.5
      = PyRet.val (v_rdc_approx1 35 180 200 1.5) := by
    simp [v_rdc]
  refine ⟨by rw [h1, h2], ?_⟩
  rw [h1, h2, h3]
  simp only [ne_eq, PyRet.val.injEq]
  intro h
  obtain ⟨hb1, hb2⟩ := sqrt35_bounds
  simp only [v_rdc_approx1] at h
  rw [min_eq_left (le_of_lt (lt_trans hb2 (by norm_num)))] at h
  norm_num at h
  linarith

/-- Helper: if `pyMin (val a) b` returns a value and `b` is a value,
the returned value is at most the value of `b`. -/
theorem pyMin_val_le {a v w : ℝ} {b : PyRet}
    (h1 : pyMin (PyRet.val a) b = PyRet.val v) (h2 : b = PyRet.val w) : v ≤ w := by
  subst h2
  simp only [pyMin, PyRet.val.injEq] at h1
  subst h1
  exact min_le_right a w

/-- C3: with reinforcement and approximation level 1 or 2, `v_rd` is
exactly Python's `min(v_rds(...), v_rd_max(...))` over the same
arguments, so a returned value never exceeds the value returned by
`v_rd_max`. -/
theorem v_rd_reinforced_capped (approx_lvl_c approx_lvl_s : ℝ)
    (fck z bw dg E As Med Ved Ned delta_e alfa gamma_c asw sw fywd theta : ℝ)
    (hs : approx_lvl_s = 1 ∨ approx_lvl_s = 2) :
    v_rd approx_lvl_c approx_lvl_s true fck z bw dg E As Med Ved Ned delta_e alfa gamma_c
        asw sw fywd theta
      = pyMin (PyRet.val (v_rds asw sw z fywd theta alfa).2)
          (v_rd_max approx_lvl_s fck bw theta z E As Med Ved Ned delta_e alfa gamma_c)
    ∧ ∀ v vmax : ℝ,
        v_rd approx_lvl_c approx_lvl_s true fck z bw dg E As Med Ved Ned delta_e alfa
            gamma_c asw sw fywd theta = PyRet.val v →
        v_rd_max approx_lvl_s fck bw theta z E As Med Ved Ned delta_e alfa gamma_c
            = PyRet.val vmax →
        v ≤ vmax := by
  have hne3 : approx_lvl_s ≠ 3 := by
    rcases hs with h | h <;> rw [h] <;> norm_num
  have h1 : v_rd approx_lvl_c approx_lvl_s true fck z bw dg E As Med Ved Ned delta_e alfa
      gamma_c asw sw fywd theta
      = pyMin (PyRet.val (v_rds asw sw z fywd theta alfa).2)
          (v_rd_max approx_lvl_s fck bw theta z E As Med Ved Ned delta_e alfa gamma_c) := by
    simp only [v_rd]
    rw [if_neg (by simp), if_neg hne3]
  exact ⟨h1, fun v vmax hv hvmax => pyMin_val_le (h1.symm.trans hv) hvmax⟩

/-- C3 witness: the cap statement instantiated at approximation level 1
with concrete arguments. -/
theorem v_rd_reinforced_capped_witness :
    ((1 : ℝ) = 1 ∨ (1 : ℝ) = 2)
    ∧ (v_rd 2 1 true 35 180 200 16 200000 2000 0 2000 0 20 90 1.5 500 200 434 40
          = pyMin (PyRet.val (v_rds 500 200 180 434 40 90).2)
              (v_rd_max 1 35 200 40 180 200000 2000 0 2000 0 20 90 1.5)
        ∧ ∀ v vmax : ℝ,
            v_rd 2 1 true 35 180 200 16 200000 2000 0 2000 0 20 90 1.5 500 200 434 40
              = PyRet.val v →
            v_rd_max 1 35 200 40 180 200000 2000 0 2000 0 20 90 1.5 = PyRet.val vmax →
            v ≤ vmax) :=
  ⟨Or.inl rfl,
    v_rd_reinforced_capped 2 1 35 180 200 16 200000 2000 0 2000 0 20 90 1.5 500 200 434 40
      (Or.inl rfl)⟩

/-- Helper: rational bounds on the radian measure of 12.5 degrees. -/
theorem t5_bounds : (0.2181661 : ℝ) < 5 * π / 72 ∧ 5 * π / 72 < 0.2181662 := by
  have h1 := Real.pi_gt_d6
  have h2 := Real.pi_lt_d6
  constructor <;> nlinarith

/-- Helper: rational bounds on the sine of 12.5 degrees, from the cubic
Taylor polynomial with Mathlib's quartic error bound. -/
theorem sin_t5_bounds : (0.216317 : ℝ) < Real.sin (5 * π / 72)
    ∧ Real.sin (5 * π / 72) < 0.216554 := by
  obtain ⟨h1, h2⟩ := t5_bounds
  have hpos : (0 : ℝ) < 5 * π / 72 := by linarith
  have habs : |5 * π / 72| ≤ 1 := by
    rw [abs_of_pos hpos]; linarith
  have hb := Real.sin_bound habs
  rw [abs_of_pos hpos, abs_le] at hb
  have p3 : (5 * π / 72) ^ 3 < 0.2181662 ^ 3 :=
    pow_lt_pow_left₀ h2 (le_of_lt hpos) (by norm_num)
  have p3' : (0.2181661 : ℝ) ^ 3 < (5 * π / 72) ^ 3 :=
    pow_lt_pow_left₀ h1 (by norm_num) (by norm_num)
  have p4 : (5 * π / 72) ^ 4 < 0.2181662 ^ 4 :=
    pow_lt_pow_left₀ h2 (le_of_lt hpos) (by norm_num)
  have p4' : (0 : ℝ) ≤ (5 * π / 72) ^ 4 := by positivity
  constructor
  · nlinarith [hb.1]
  · nlinarith [hb.2]

/-- Helper: rational bounds on the cosine of 12.5 degrees, from the
quadratic Taylor polynomial with Mathlib's quartic error bound. -/
theorem cos_t5_bounds : (0.976083 : ℝ) < Real.cos (5 * π / 72)
    ∧ Real.cos (5 * π / 72) < 0.976320 := by
  obtain ⟨h1, h2⟩ := t5_bounds
  have hpos : (0 : ℝ) < 5 * π / 72 := by linarith
  have habs : |5 * π / 72| ≤ 1 := by
    rw [abs_of_pos hpos]; linarith
  have hb := Real.cos_bound habs
  rw [abs_of_pos hpos, abs_le] at hb
  have p2 : (5 * π / 72) ^ 2 < 0.2181662 ^ 2 :=
    pow_lt_pow_left₀ h2 (le_of_lt hpos) (by norm_num)
  have p2' : (0.2181661 : ℝ) ^ 2 < (5 * π / 72) ^ 2 :=
    pow_lt_pow_left₀ h1 (by norm_num) (by norm_num)
  have p4 : (5 * π / 72) ^ 4 < 0.2181662 ^ 4 :=
    pow_lt_pow_left₀ h2 (le_of_lt hpos) (by norm_num)
  have p4' : (0 : ℝ) ≤ (5 * π / 72) ^ 4 := by positivity
  constructor
  · nlinarith [hb.1]
  · nlinarith [hb.2]

/-- Helper: rational bounds on the sine of 25 degrees via the
double-angle identity. -/
theorem sin25_bounds : (0.42228 : ℝ) < Real.sin (25 * π / 180)
    ∧ Real.sin (25 * π / 180) < 0.42286 := by
  have h : (25 : ℝ) * π / 180 = 2 * (5 * π / 72) := by ring
  rw [h, Real.sin_two_mul]
  obtain ⟨hs1, hs2⟩ := sin_t5_bounds
  obtain ⟨hc1, hc2⟩ := cos_t5_bounds
  constructor
  · nlinarith [mul_pos (show (0 : ℝ) < Real.sin (5 * π / 72) - 0.216317 by linarith)
      (show (0 : ℝ) < Real.cos (5 * π / 72) - 0.976083 by linarith)]
  · nlinarith [mul_pos (show (0 : ℝ) < 0.216554 - Real.sin (5 * π / 72) by linarith)
      (show (0 : ℝ) < 0.976320 - Real.cos (5 * π / 72) by linarith)]

/-- Helper: rational bounds on the cosine of 25 degrees via the
double-angle identity. -/
theorem cos25_bounds : (0.90584 : ℝ) < Real.cos (25 * π / 180)
    ∧ Real.cos (25 * π / 180) < 0.90642 := by
  have h : (25 : ℝ) * π / 180 = 2 * (5 * π / 72) := by ring
  rw [h, Real.cos_two_mul']
  obtain ⟨hs1, hs2⟩ := sin_t5_bounds
  obtain ⟨hc1, hc2⟩ := cos_t5_bounds
  constructor
  · nlinarith [mul_pos (show (0 : ℝ) < Real.cos (5 * π / 72) - 0.976083 by linarith)
      (show (0 : ℝ) < Real.cos (5 * π / 72) + 0.976083 by linarith),
      mul_pos (show (0 : ℝ) < 0.216554 - Real.sin (5 * π / 72) by linarith)
      (show (0 : ℝ) < 0.216554 + Real.sin (5 * π / 72) by linarith)]
  · nlinarith [mul_pos (show (0 : ℝ) < 0.976320 - Real.cos (5 * π / 72) by linarith)
      (show (0 : ℝ) < 0.976320 + Real.cos (5 * π / 72) by linarith),
      mul_pos (show (0 : ℝ) < Real.sin (5 * π / 72) - 0.216317 by linarith)
      (show (0 : ℝ) < Real.sin (5 * π / 72) + 0.216317 by linarith)]

/-- Helper: rational bounds on the cotangent of 25 degrees. -/
theorem cot25_bounds : (2.142 : ℝ) < 1 / Real.tan (25 * π / 180)
    ∧ 1 / Real.tan (25 * π / 180) < 2.1466 := by
  obtain ⟨hs1, hs2⟩ := sin25_bounds
  obtain ⟨hc1, hc2⟩ := cos25_bounds
  have hspos : (0 : ℝ) < Real.sin (25 * π / 180) := by linarith
  rw [Real.tan_eq_sin_div_cos, one_div_div]
  constructor
  · rw [lt_div_iff₀ hspos]; nlinarith
  · rw [div_lt_iff₀ hspos]; nlinarith

/-- Helper: rational bounds on the square root of 3. -/
theorem sqrt3_bounds : (1.732050 : ℝ) < Real.sqrt 3 ∧ Real.sqrt 3 < 1.7320509 := by
  have h := Real.sq_sqrt (show (0 : ℝ) ≤ 3 by norm_num)
  have hn := Real.sqrt_nonneg 3
  constructor <;> nlinarith

/-- Helper: the cotangent of 30 degrees is the square root of 3. -/
theorem cot30_eq_sqrt3 : 1 / Real.tan (30 * π / 180) = Real.sqrt 3 := by
  have h : (30 : ℝ) * π / 180 = π / 6 := by ring
  rw [h, Real.tan_eq_sin_div_cos, Real.sin_pi_div_six, Real.cos_pi_div_six, one_div_div]
  ring

/-- Helper: the sine of 30 degrees is one half. -/
theorem sin30_eq_half : Real.sin (30 * π / 180) = 1 / 2 := by
  rw [show (30 : ℝ) * π / 180 = π / 6 by ring, Real.sin_pi_div_six]

/-- C8: `v_rds` returns the stated cotangent formula with the angles
converted from degrees to radians, and its value at
`(1600, 50, 200, 355, 25, 30)` is within 0.1 percent of 4403769. -/
theorem v_rds_formula_and_value (asw sw z fywd theta alpha : ℝ) (hsw : sw ≠ 0) :
    (v_rds asw sw z fywd theta alpha).2
      = asw / sw * z * fywd *
          (1 / Real.tan (theta * π / 180) + 1 / Real.tan (alpha * π / 180)) *
          Real.sin (alpha * π / 180)
    ∧ |(v_rds 1600 50 200 355 25 30).2 - 4403769| ≤ 0.001 * 4403769 := by
  refine ⟨rfl, ?_⟩
  have hv : (v_rds 1600 50 200 355 25 30).2
      = (1600 : ℝ) / 50 * 200 * 355 * (1 / Real.tan (25 * π / 180) + Real.sqrt 3) * (1 / 2) := by
    show (1600 : ℝ) / 50 * 200 * 355 *
        (1 / Real.tan (25 * π / 180) + 1 / Real.tan (30 * π / 180)) *
        Real.sin (30 * π / 180)
      = (1600 : ℝ) / 50 * 200 * 355 * (1 / Real.tan (25 * π / 180) + Real.sqrt 3) * (1 / 2)
    rw [cot30_eq_sqrt3, sin30_eq_half]
  rw [hv]
  obtain ⟨hc1, hc2⟩ := cot25_bounds
  obtain ⟨hq1, hq2⟩ := sqrt3_bounds
  rw [abs_le]
  constructor <;> nlinarith

/-- C8 witness: the hypothesis `sw ≠ 0` holds at the reference input
`(1600, 50, 200, 355, 25, 30)` and the statement follows there. -/
theorem v_rds_formula_and_value_witness :
    ((50 : ℝ) ≠ 0)
    ∧ ((v_rds 1600 50 200 355 25 30).2
        = (1600 : ℝ) / 50 * 200 * 355 *
            (1 / Real.tan ((25 : ℝ) * π / 180) + 1 / Real.tan ((30 : ℝ) * π / 180)) *
            Real.sin ((30 : ℝ) * π / 180)
      ∧ |(v_rds 1600 50 200 355 25 30).2 - 4403769| ≤ 0.001 * 4403769) :=
  ⟨by norm_num, v_rds_formula_and_value 1600 50 200 355 25 30 (by norm_num)⟩

/-- Helper: at `(1600, 50, 200, 355, 25)` the default-argument call of
`v_rds` (default `alpha = pi/2`, which the body then treats as degrees)
differs from the call with the angle 90. -/
theorem v_rds_default_value_ne_90 :
    (v_rds_default 1600 50 200 355 25).2 ≠ (v_rds 1600 50 200 355 25 90).2 := by
  have h90 : (90 : ℝ) * π / 180 = π / 2 := by ring
  have hrhs : (v_rds 1600 50 200 355 25 90).2
      = (1600 : ℝ) / 50 * 200 * 355 * (1 / Real.tan (25 * π / 180)) := by
    show (1600 : ℝ) / 50 * 200 * 355 *
        (1 / Real.tan (25 * π / 180) + 1 / Real.tan (90 * π / 180)) *
        Real.sin (90 * π / 180)
      = (1600 : ℝ) / 50 * 200 * 355 * (1 / Real.tan (25 * π / 180))
    rw [h90, Real.tan_pi_div_two, Real.sin_pi_div_two]
    norm_num
  have hw : π / 2 * π / 180 = π ^ 2 / 360 := by ring
  have hwpos : (0 : ℝ) < π ^ 2 / 360 := by positivity
  have hwlt : π ^ 2 / 360 < 0.0275 := by nlinarith [Real.pi_lt_d6, Real.pi_gt_d6]
  have hsinpos : (0 : ℝ) < Real.sin (π ^ 2 / 360) :=
    Real.sin_pos_of_pos_of_le_one hwpos (by linarith)
  have hsinlt : Real.sin (π ^ 2 / 360) < 0.0275 :=
    lt_trans (Real.sin_lt hwpos) hwlt
  have hcosle : Real.cos (π ^ 2 / 360) ≤ 1 := Real.cos_le_one _
  have hcot : 1 / Real.tan (π ^ 2 / 360)
      = Real.cos (π ^ 2 / 360) / Real.sin (π ^ 2 / 360) := by
    rw [Real.tan_eq_sin_div_cos, one_div_div]
  have hlhs : (v_rds_default 1600 50 200 355 25).2
      = (1600 : ℝ) / 50 * 200 * 355 *
          (1 / Real.tan (25 * π / 180) * Real.sin (π ^ 2 / 360) + Real.cos (π ^ 2 / 360)) := by
    show (1600 : ℝ) / 50 * 200 * 355 *
        (1 / Real.tan (25 * π / 180) + 1 / Real.tan (π / 2 * π / 180)) *
        Real.sin (π / 2 * π / 180)
      = (1600 : ℝ) / 50 * 200 * 355 *
          (1 / Real.tan (25 * π / 180) * Real.sin (π ^ 2 / 360) + Real.cos (π ^ 2 / 360))
    rw [hw, hcot]
    field_simp
    ring
  rw [hlhs, hrhs]
  obtain ⟨hc1, hc2⟩ := cot25_bounds
  have key : 1 / Real.tan (25 * π / 180) * Real.sin (π ^ 2 / 360) + Real.cos (π ^ 2 / 360)
      < 1 / Real.tan (25 * π / 180) := by
    nlinarith [mul_pos (show (0 : ℝ) < 1 / Real.tan (25 * π / 180) - 2.142 by linarith)
      (show (0 : ℝ) < 1 - Real.sin (π ^ 2 / 360) by linarith)]
  intro h
  nlinarith [key]

/-- C9 (counterexample): calling `v_rds` without its stirrup-inclination
argument does not return the same value as calling it with the angle
explicitly set to 90 degrees: at `(1600, 50, 200, 355, 25)` the two
calls differ. -/
theorem v_rds_default_not_90 :
    (v_rds_default 1600 50 200 355 25).2 ≠ (v_rds 1600 50 200 355 25 90).2 :=
  v_rds_default_value_ne_90

/-- C9 (amended): the stirrup-inclination defaults are `pi/2` for
`v_rds` and `0` (with `gamma_c = 1.5`) for `v_rd_max_approx1` — not 90
degrees: omitting the arguments equals passing those literal values, and
at `(1600, 50, 200, 355, 25)` the default call of `v_rds` differs from
the 90-degree call. -/
theorem default_angle_values (asw sw z fywd theta fck bw theta2 z2 : ℝ) :
    v_rds_default asw sw z fywd theta = v_rds asw sw z fywd theta (π / 2)
    ∧ v_rd_max_approx1_default fck bw theta2 z2 = v_rd_max_approx1 fck bw theta2 z2 0 1.5
    ∧ (v_rds_default 1600 50 200 355 25).2 ≠ (v_rds 1600 50 200 355 25 90).2 :=
  ⟨rfl, rfl, v_rds_default_value_ne_90⟩

end ConcreteShear
